import Mathlib

/-!
Verification of the LFAS Protocol v4 vulnerability-detection and crisis-classification
engine. The repository contains several near-duplicate Python variants of the same
engine; each variant is embedded in its own namespace, faithfully following its
source module:

* `LfasProtocol` — `src/lfas_protocol/detector.py`
* `SrcLfas`      — `src/src/lfas/detector.py` and `src/src/lfas/crisis.py`
* `SrcProtocol`  — `src/src/lfas_protocol/detector.py`
* `Lfas`         — `src/lfas/detector.py`, `src/lfas/crisis.py`, `src/lfas/models.py`
* `Core`         — `src/integrations/core/detector.py` and `protection.py`
* `Engine`       — `src/integrations/python/shared/lfas_engine.py`

Python strings are modelled as lists of Unicode code points (`PyStr`); `str.lower`
and `str.upper` are modelled character-wise: the ASCII case mapping (`pyLower`,
`pyUpper`), extended for `str.upper` by the case-expanding Unicode mappings of the
non-ASCII code points exercised in this file (`pyUpperFull` — e.g. U+017F ſ
uppercases to `S`, U+00DF ß to `SS`). The Python `in` operator on strings is
modelled as literal substring containment. Taxonomies that
the Python code loads from the external XML specification file are injected as
parameters (the spec treats the taxonomy as an injected dependency of the core);
indicator tables that are literal in the Python source are embedded literally.
-/

/-- A Python string, as its list of Unicode code points. -/
abbrev PyStr := List Nat

/-- Embed a Lean string literal as a `PyStr`. -/
def pyStr (s : String) : PyStr := s.data.map Char.toNat

/-- Character-wise model of Python `str.lower` (ASCII case mapping). -/
def pyCharLower (c : Nat) : Nat := if 65 ≤ c ∧ c ≤ 90 then c + 32 else c

/-- Character-wise model of Python `str.upper` (ASCII case mapping). -/
def pyCharUpper (c : Nat) : Nat := if 97 ≤ c ∧ c ≤ 122 then c - 32 else c

/-- Model of Python `str.lower`. -/
def pyLower (s : PyStr) : PyStr := s.map pyCharLower

/-- Model of Python `str.upper`, ASCII part. -/
def pyUpper (s : PyStr) : PyStr := s.map pyCharUpper

/-- Python `str.upper` of one character, following the Unicode case mapping: on
ASCII it is `pyCharUpper`; beyond ASCII, Python uppercases by the Unicode table,
which *case-expands* some code points — of those, this model covers
U+00DF ß → `SS`, U+017F ſ → `S`, U+FB05 ﬅ → `ST` and U+FB06 ﬆ → `ST`, the
points exercised in this file; remaining code points are left unchanged (exact
for the inputs appearing below). -/
def pyCharUpperFull (c : Nat) : List Nat :=
  if c = 0xDF then [83, 83]
  else if c = 0x17F then [83]
  else if c = 0xFB05 then [83, 84]
  else if c = 0xFB06 then [83, 84]
  else [pyCharUpper c]

/-- Python `str.upper` with the case-expanding Unicode mappings of
`pyCharUpperFull`. -/
def pyUpperFull (s : PyStr) : PyStr := (s.map pyCharUpperFull).flatten

/-- Model of the Python substring test `needle in haystack`. -/
def pyIn (needle haystack : PyStr) : Bool :=
  match haystack with
  | [] => needle.isEmpty
  | _ :: t => needle.isPrefixOf haystack || pyIn needle t

/-- The three LFAS protection levels (`ProtectionLevel` IntEnum, identical in every
source variant): STANDARD = 1, ENHANCED = 2, CRISIS = 3. -/
inductive ProtectionLevel where
  | standard
  | enhanced
  | crisis
deriving DecidableEq, Repr

/-- The numeric value of a protection level (the IntEnum value). -/
def ProtectionLevel.val : ProtectionLevel → Nat
  | .standard => 1
  | .enhanced => 2
  | .crisis => 3

/-- Python `max` on the `ProtectionLevel` IntEnum (compares numeric values). -/
def maxLevel (a b : ProtectionLevel) : ProtectionLevel :=
  if a.val < b.val then b else a

/-- The matching loop shared by the detectors: scan the categories in order and
return the matched `(category, phrase)` pairs, phrases in taxonomy order within
each category. `m phrase` is the variant's match test against the analyzed text. -/
def matchPairsWith (m : PyStr → Bool) : List (String × List PyStr) → List (String × PyStr)
  | [] => []
  | ci :: rest => (ci.2.filter m).map (fun i => (ci.1, i)) ++ matchPairsWith m rest

namespace LfasProtocol

/-- `src/lfas_protocol/detector.py`: the `crisis_language` indicator list. -/
def crisisLanguage : List PyStr :=
  [pyStr "last hope", pyStr "only chance", pyStr "can't take it anymore",
   pyStr "nobody understands", pyStr "completely alone",
   pyStr "if this doesn't work, i'm done", pyStr "thinking about ending it",
   pyStr "don't want to live", pyStr "can't take it",
   pyStr "everything is hopeless", pyStr "no point", pyStr "want to die",
   pyStr "end it all"]

/-- `src/lfas_protocol/detector.py`: the `financial_desperation` indicator list. -/
def financialDesperation : List PyStr :=
  [pyStr "lost my job", pyStr "last $", pyStr "need money fast",
   pyStr "desperate for income", pyStr "can't pay bills", pyStr "behind on rent",
   pyStr "facing eviction", pyStr "need cash now", pyStr "bills due",
   pyStr "can't afford"]

/-- `src/lfas_protocol/detector.py`: the `health_crisis` indicator list. -/
def healthCrisis : List PyStr :=
  [pyStr "can't see a doctor", pyStr "no insurance", pyStr "pain won't stop",
   pyStr "no medical help", pyStr "can't afford medication",
   pyStr "can't get treatment", pyStr "health emergency"]

/-- `src/lfas_protocol/detector.py`: the `isolation` indicator list. -/
def isolationIndicators : List PyStr :=
  [pyStr "no one to talk to", pyStr "family doesn't understand",
   pyStr "you're the only one who listens", pyStr "completely alone in this",
   pyStr "no one cares", pyStr "nobody listens", pyStr "all alone"]

/-- `src/lfas_protocol/detector.py`: `self.indicators_map` (insertion order). -/
def indicatorsMap : List (String × List PyStr) :=
  [("crisis_language", crisisLanguage),
   ("financial_desperation", financialDesperation),
   ("health_crisis", healthCrisis),
   ("isolation", isolationIndicators)]

/-- `src/lfas_protocol/detector.py`: the `DetectionResult` dataclass. -/
structure DetectionResult where
  protectionLevel : ProtectionLevel
  triggeredIndicators : List PyStr
  indicatorCount : Nat
  categories : List String
deriving DecidableEq, Repr

/-- `src/lfas_protocol/detector.py` `VulnerabilityDetector.detect`: lowercase the
input, collect every indicator contained in it (these lists are already lowercase
in the source and are tested as-is), count the matches and map the count to a
level (`0 → STANDARD`, `≤ 2 → ENHANCED`, else `CRISIS`). The category set is
modelled as the deduplicated list of matched categories in insertion order. -/
def detect (userInput : PyStr) : DetectionResult :=
  let lower := pyLower userInput
  let matched := matchPairsWith (fun ind => pyIn ind lower) indicatorsMap
  let triggeredIndicators := matched.map (·.2)
  let n := triggeredIndicators.length
  let level : ProtectionLevel :=
    if n = 0 then .standard else if n ≤ 2 then .enhanced else .crisis
  ⟨level, triggeredIndicators, n, (matched.map (·.1)).dedup⟩

end LfasProtocol

namespace SrcLfas

/-- `src/src/lfas/detector.py`: the `DetectionResult` class. -/
structure DetectionResult where
  protectionLevel : ProtectionLevel
  triggeredIndicators : List PyStr
  triggeredCategories : List String
  triggerCount : Nat
deriving DecidableEq, Repr

/-- `src/src/lfas/detector.py` `_determine_protection_level`:
`≥ 3 → CRISIS`, `≥ 2 → ENHANCED`, else (0-1 triggers) `STANDARD`. -/
def determineProtectionLevel (triggerCount : Nat) : ProtectionLevel :=
  if triggerCount ≥ 3 then .crisis
  else if triggerCount ≥ 2 then .enhanced
  else .standard

/-- Python `" ".join(xs)`. -/
def pyJoinSpace : List PyStr → PyStr
  | [] => []
  | [m] => m
  | m :: rest => m ++ pyStr " " ++ pyJoinSpace rest

/-- The last `n` elements of a list (Python `xs[-n:]` for nonempty `xs`). -/
def lastN (n : Nat) (xs : List PyStr) : List PyStr := xs.drop (xs.length - n)

/-- `src/src/lfas/detector.py` `VulnerabilityDetector.detect`: the analyzed text is
the lowercased input, prefixed by the lowercased join of the last 3 history
messages when a history is given; each taxonomy phrase is lowercased and tested
for containment. The indicator taxonomy is loaded from the external XML
specification in the source and is injected here. -/
def detect (indicators : List (String × List PyStr)) (userInput : PyStr)
    (conversationHistory : List PyStr) : DetectionResult :=
  let base := pyLower userInput
  let textToAnalyze :=
    if conversationHistory.isEmpty then base
    else pyLower (pyJoinSpace (lastN 3 conversationHistory)) ++ pyStr " " ++ base
  let matched := matchPairsWith (fun p => pyIn (pyLower p) textToAnalyze) indicators
  let triggeredIndicators := matched.map (·.2)
  let n := triggeredIndicators.length
  ⟨determineProtectionLevel n, triggeredIndicators, (matched.map (·.1)).dedup, n⟩

/-- `src/src/lfas/crisis.py`: the `CrisisResource` dataclass. -/
structure CrisisResource where
  name : String
  description : String
  contact : String
  region : String
deriving DecidableEq, Repr

/-- `src/src/lfas/crisis.py`: the `CRISIS_RESOURCES` table (insertion order). -/
def crisisResources : List (String × List CrisisResource) :=
  [("mental_health",
    [⟨"National Suicide Prevention Lifeline", "24/7 support for people in distress",
      "988 or 1-800-273-8255", "US"⟩,
     ⟨"Crisis Text Line", "Text-based crisis support", "Text HOME to 741741", "US"⟩,
     ⟨"International Association for Suicide Prevention",
      "Global crisis helpline directory", "https://findahelpline.com", "International"⟩]),
   ("financial",
    [⟨"National Foundation for Credit Counseling", "Free financial counseling",
      "1-800-388-2227 or https://nfcc.org", "US"⟩,
     ⟨"211 Helpline", "Local community resources", "Dial 211", "US"⟩]),
   ("health",
    [⟨"Emergency Services", "Immediate medical emergency", "911", "US"⟩,
     ⟨"SAMHSA National Helpline", "Substance abuse and mental health",
      "1-800-662-4357", "US"⟩]),
   ("abuse",
    [⟨"National Domestic Violence Hotline", "24/7 support for domestic violence",
      "1-800-799-7233 or text START to 88788", "US"⟩,
     ⟨"Childhelp National Child Abuse Hotline", "Support for child abuse cases",
      "1-800-422-4453", "US"⟩])]

/-- `src/src/lfas/crisis.py`: the `CrisisResponse` class. -/
structure CrisisResponse where
  crisisDetected : Bool
  crisisType : String
  resources : List CrisisResource
  recommendedActions : List String
deriving DecidableEq, Repr

/-- `src/src/lfas/crisis.py` `_determine_crisis_type`: the mental-health keywords
checked inside the `crisis_language` branch. -/
def mentalHealthKeywords : List PyStr :=
  [pyStr "ending it", pyStr "don't want to live", pyStr "thinking about ending"]

/-- `src/src/lfas/crisis.py` `_determine_crisis_type`: category-priority
classification — `crisis_language` with a mental-health keyword in some triggered
indicator → `mental_health`; then `health_crisis` → `health`; then
`financial_desperation` → `financial`; bare `crisis_language` → `mental_health`;
otherwise `"general"`. -/
def determineCrisisType (dr : DetectionResult) : String :=
  let cats := dr.triggeredCategories
  if "crisis_language" ∈ cats ∧
      dr.triggeredIndicators.any (fun ind =>
        mentalHealthKeywords.any (fun k => pyIn k (pyLower ind))) then
    "mental_health"
  else if "health_crisis" ∈ cats then "health"
  else if "financial_desperation" ∈ cats then "financial"
  else if "crisis_language" ∈ cats then "mental_health"
  else "general"

/-- `src/src/lfas/crisis.py` `_get_resources`: the resources listed for the crisis
type (none for an unknown type such as `"general"`), plus the first mental-health
resource when the type is not `mental_health` and `trigger_count >= 4`. -/
def getResources (crisisType : String) (dr : DetectionResult) : List CrisisResource :=
  let base := (crisisResources.lookup crisisType).getD []
  if crisisType ≠ "mental_health" ∧ dr.triggerCount ≥ 4 then
    base ++ ((crisisResources.lookup "mental_health").getD []).take 1
  else base

/-- `src/src/lfas/crisis.py` `_generate_recommended_actions`. -/
def generateRecommendedActions (crisisType : String) : List String :=
  let actions :=
    ["Pause normal processing immediately",
     "Acknowledge the crisis state explicitly",
     "Provide immediate crisis resources",
     "Encourage seeking professional help",
     "Avoid any business or productivity advice"]
  if crisisType = "mental_health" then
    actions ++
      ["Express empathy without minimizing feelings",
       "Do not attempt to provide therapy or counseling",
       "Strongly encourage contacting crisis support immediately"]
  else if crisisType = "financial" then
    actions ++
      ["Avoid suggesting risky financial strategies",
       "Recommend professional financial counseling",
       "Connect to local community resources"]
  else if crisisType = "health" then
    actions ++
      ["For emergencies, recommend calling 911 immediately",
       "Do not provide medical diagnosis or treatment advice",
       "Encourage seeking professional medical care"]
  else actions

/-- `src/src/lfas/crisis.py` `CrisisDetector.assess_crisis`: below CRISIS return
the explicit no-crisis sentinel (`crisis_detected=False`, type `"none"`, no
resources, no actions); at CRISIS classify the type and attach resources and
actions. -/
def assessCrisis (dr : DetectionResult) : CrisisResponse :=
  if dr.protectionLevel.val < ProtectionLevel.crisis.val then
    ⟨false, "none", [], []⟩
  else
    let ct := determineCrisisType dr
    ⟨true, ct, getResources ct dr, generateRecommendedActions ct⟩

end SrcLfas

namespace SrcProtocol

/-- `src/src/lfas_protocol/detector.py` `_get_default_indicators` (insertion order). -/
def defaultIndicators : List (String × List PyStr) :=
  [("crisis_language",
    [pyStr "last hope", pyStr "only chance", pyStr "can't take it anymore",
     pyStr "nobody understands", pyStr "completely alone",
     pyStr "if this doesn't work", pyStr "i'm done",
     pyStr "thinking about ending it", pyStr "don't want to live"]),
   ("financial_desperation",
    [pyStr "lost my job", pyStr "last $", pyStr "need money fast",
     pyStr "desperate for income", pyStr "can't pay bills",
     pyStr "behind on rent", pyStr "facing eviction"]),
   ("health_crisis",
    [pyStr "can't see a doctor", pyStr "no insurance", pyStr "pain won't stop",
     pyStr "no medical help", pyStr "can't afford medication"]),
   ("isolation_indicators",
    [pyStr "no one to talk to", pyStr "family doesn't understand",
     pyStr "you're the only one who listens", pyStr "completely alone in this"])]

/-- `src/src/lfas_protocol/detector.py` `_calculate_protection_level`: maps the
number of triggered *categories* to a level. -/
def calculateProtectionLevel (triggerCount : Nat) : ProtectionLevel :=
  if triggerCount = 0 then .standard
  else if triggerCount ≤ 2 then .enhanced
  else .crisis

/-- `src/src/lfas_protocol/detector.py`: the dictionary `analyze` returns. -/
structure AnalyzeResult where
  triggers : List String
  triggerCount : Nat
  protectionLevel : ProtectionLevel
  matchedPhrases : List PyStr
  categories : List (String × Nat)
deriving DecidableEq, Repr

/-- `src/src/lfas_protocol/detector.py` `VulnerabilityDetector.analyze`:
`triggers` is the *set of categories* with at least one phrase match, and
`trigger_count = len(triggers)` — the number of triggered categories, not the
number of matched phrases. -/
def analyze (message : PyStr) : AnalyzeResult :=
  let ml := pyLower message
  let perCat := defaultIndicators.map
    (fun ci => (ci.1, ci.2.filter (fun p => pyIn (pyLower p) ml)))
  let triggered := perCat.filter (fun c => ¬ c.2.isEmpty)
  let triggers := triggered.map (·.1)
  ⟨triggers, triggers.length, calculateProtectionLevel triggers.length,
   (perCat.map (·.2)).flatten, triggered.map (fun c => (c.1, c.2.length))⟩

end SrcProtocol

/-- A Python runtime error raised by the embedded code. -/
inductive PyError where
  | typeError
  | valueError
deriving DecidableEq, Repr

/-- Whether a Python dataclass call with the given keyword-argument names succeeds:
every keyword must name a declared field and every (non-defaulted) field must be
supplied, otherwise the generated `__init__` raises `TypeError`. -/
def pyDataclassCallOk (fields kwargs : List String) : Bool :=
  kwargs.all (fun k => fields.contains k) && fields.all (fun f => kwargs.contains f)

namespace Lfas

/-- `src/lfas/models.py`: the `DetectionResult` dataclass. -/
structure DetectionResult where
  protectionLevel : ProtectionLevel
  triggersCount : Nat
  detectedCategories : List String
  originalInput : PyStr
  conversationHistory : Option (List PyStr)
deriving DecidableEq, Repr

/-- `src/lfas/detector.py` `_determine_protection_level`, with the escalation
thresholds (`crisis_min`, `enhanced_min`) that the source reads from the loaded
escalation rules (defaults: `crisis_min = 3`, `enhanced_min = 1`). -/
def determineProtectionLevel (crisisMin enhancedMin triggerCount : Nat) :
    ProtectionLevel :=
  if triggerCount ≥ crisisMin then .crisis
  else if triggerCount ≥ enhancedMin then .enhanced
  else .standard

/-- `src/lfas/detector.py` `VulnerabilityDetector.detect`. The detector's mutable
`self.conversation_history` is passed in as `state` and the updated history is
returned next to the result: when a history argument is given it replaces the
stored one, and the current input is appended. Only the current input is scanned;
`total_triggers` counts one per (category, indicator) match. The indicator
taxonomy is loaded from the external XML specification in the source and is
injected here. -/
def detect (indicators : List (String × List PyStr)) (crisisMin enhancedMin : Nat)
    (state : List PyStr) (userInput : PyStr) (historyArg : Option (List PyStr)) :
    List PyStr × DetectionResult :=
  let hist := (match historyArg with | some h => h | none => state) ++ [userInput]
  let inputLower := pyLower userInput
  let matched := matchPairsWith (fun ind => pyIn (pyLower ind) inputLower) indicators
  let total := matched.length
  (hist,
   ⟨determineProtectionLevel crisisMin enhancedMin total, total,
    (matched.map (·.1)).dedup, userInput, some hist⟩)

/-- `src/lfas/models.py`: the `CrisisResource` dataclass. -/
structure CrisisResource where
  name : String
  description : String
  contact : String
  availability : String
  crisisType : String
deriving DecidableEq, Repr

/-- `src/lfas/crisis.py`: the `self.crisis_keywords` table (insertion order). -/
def crisisKeywords : List (String × List PyStr) :=
  [("mental_health",
    [pyStr "suicide", pyStr "suicidal", pyStr "kill myself", pyStr "end it all",
     pyStr "self-harm", pyStr "want to die", pyStr "better off dead",
     pyStr "no reason to live", pyStr "thinking about ending", pyStr "can't go on",
     pyStr "don't want to live"]),
   ("financial",
    [pyStr "lost my job", pyStr "unemployed", pyStr "bankrupt", pyStr "bankruptcy",
     pyStr "eviction", pyStr "foreclosure", pyStr "can't pay", pyStr "no money",
     pyStr "desperate for money", pyStr "financial crisis", pyStr "losing everything"]),
   ("health",
    [pyStr "health emergency", pyStr "can't see doctor", pyStr "no insurance",
     pyStr "medical emergency", pyStr "pain won't stop",
     pyStr "can't afford medication", pyStr "seriously ill", pyStr "health crisis"]),
   ("abuse",
    [pyStr "domestic violence", pyStr "being abused", pyStr "partner hurts me",
     pyStr "afraid for my safety", pyStr "violent relationship",
     pyStr "sexual assault", pyStr "physical abuse"])]

/-- `src/lfas/crisis.py` `_detect_crisis_types`: the crisis types, in table order,
having at least one keyword contained in the lowercased input. -/
def detectCrisisTypes (userInput : PyStr) : List String :=
  let inputLower := pyLower userInput
  (crisisKeywords.filter (fun ck => ck.2.any (fun k => pyIn k inputLower))).map (·.1)

/-- `src/lfas/crisis.py` `assess_crisis`, the primary-crisis selection: with more
than one detected type, `mental_health` wins if present, otherwise `mixed`; with
exactly one type, that type; with none, the `mental_health` default. -/
def primaryCrisis (crisisTypes : List String) : String :=
  if 1 < crisisTypes.length ∧ "mental_health" ∈ crisisTypes then "mental_health"
  else if 1 < crisisTypes.length then "mixed"
  else
    match crisisTypes with
    | t :: _ => t
    | [] => "mental_health"

/-- `src/lfas/crisis.py` `_get_crisis_resources`: the primary type's resources;
for `mixed` with `mental_health` among the detected types, additionally the first
mental-health resource unless a resource of that name is already present; if
still empty, all mental-health resources. The resource table is loaded from the
external XML specification in the source and is injected here (resource records
assumed well-formed, as the spec makes the loader responsible for validation). -/
def getCrisisResources (crisisResources : List (String × List CrisisResource))
    (primary : String) (allCrisisTypes : List String) : List CrisisResource :=
  let base := (crisisResources.lookup primary).getD []
  let extra :=
    if primary = "mixed" ∧ "mental_health" ∈ allCrisisTypes then
      (((crisisResources.lookup "mental_health").getD []).take 1).filter
        (fun d => ¬ base.any (fun r => r.name = d.name))
    else []
  let combined := base ++ extra
  if combined.isEmpty ∧ (crisisResources.lookup "mental_health").isSome then
    combined ++ (crisisResources.lookup "mental_health").getD []
  else combined

/-- `src/lfas/crisis.py` `_get_recommended_actions`: type-specific actions followed
by the three base actions. -/
def getRecommendedActions (primary : String) : List String :=
  let baseActions :=
    ["Reach out to one of the crisis resources listed above",
     "Consider contacting a trusted friend or family member",
     "If in immediate danger, call emergency services (911)"]
  let specificTable : List (String × List String) :=
    [("mental_health",
      ["Talk to someone trained in crisis support - call 988",
       "Do not make any permanent decisions right now",
       "Remove immediate means of self-harm if possible"]),
     ("financial",
      ["Contact a financial counselor for professional guidance",
       "Explore community assistance programs in your area",
       "Avoid making rushed financial decisions"]),
     ("health",
      ["Seek immediate medical attention if experiencing emergency symptoms",
       "Contact local community health centers for affordable care",
       "Look into health care assistance programs"]),
     ("abuse",
      ["Reach out to the domestic violence hotline for confidential support",
       "Create a safety plan if you haven't already",
       "Contact local law enforcement if in immediate danger"]),
     ("mixed",
      ["Prioritize your immediate safety and well-being",
       "Reach out to crisis support services",
       "Consider which issue needs most urgent attention"])]
  (specificTable.lookup primary).getD [] ++ baseActions

/-- `src/lfas/crisis.py` `_create_crisis_message`: the per-type message key (the
message texts themselves are presentation data; only the selected key matters
for the claims). `messages.get(primary, messages["mental_health"])`. -/
def crisisMessageKey (primary : String) : String :=
  if primary ∈ ["mental_health", "financial", "health", "abuse", "mixed"] then primary
  else "mental_health"

/-- `src/lfas/crisis.py` `_extract_detected_indicators`: for each detected type in
order, the keywords of that type contained in the lowercased input, rendered as
`"{type}: '{keyword}'"`. -/
def extractDetectedIndicators (userInput : PyStr) (crisisTypes : List String) :
    List PyStr :=
  let inputLower := pyLower userInput
  (crisisTypes.map (fun t =>
    (((crisisKeywords.lookup t).getD []).filter (fun k => pyIn k inputLower)).map
      (fun k => pyStr t ++ pyStr ": '" ++ k ++ pyStr "'"))).flatten

/-- `src/lfas/models.py`: the field names of the `CrisisResult` dataclass, all of
them without defaults. -/
def crisisResultFields : List String :=
  ["crisis_type", "severity", "detection_result", "resources",
   "recommended_actions", "message"]

/-- `src/lfas/crisis.py` `assess_crisis` (crisis path, lines 121-128): the keyword
arguments passed to `CrisisResult(...)`. -/
def assessCrisisKwargs : List String :=
  ["crisis_type", "protection_level", "detected_indicators", "primary_resources",
   "recommended_actions", "user_message"]

/-- `src/lfas/crisis.py` `_create_non_crisis_result` (lines 257-267): the keyword
arguments passed to `CrisisResult(...)` — the same six names as the crisis path. -/
def nonCrisisKwargs : List String :=
  ["crisis_type", "protection_level", "detected_indicators", "primary_resources",
   "recommended_actions", "user_message"]

/-- The values `assess_crisis` computes and passes to the `CrisisResult`
constructor (attribute names as at the call sites). -/
structure CrisisCall where
  crisisType : String
  protectionLevel : ProtectionLevel
  detectedIndicators : List PyStr
  primaryResources : List CrisisResource
  recommendedActions : List String
  userMessageKey : String
deriving DecidableEq, Repr

/-- A call `CrisisResult(**kwargs)`: Python's generated dataclass `__init__`
raises `TypeError` when a keyword does not name a field of
`crisisResultFields` or a required field is missing. -/
def mkCrisisResult (kwargs : List String) (args : CrisisCall) :
    Except PyError CrisisCall :=
  if pyDataclassCallOk crisisResultFields kwargs then .ok args
  else .error .typeError

/-- `src/lfas/crisis.py` `CrisisDetector.assess_crisis`: below level 3 it builds
the non-crisis result, otherwise it classifies the crisis, gathers resources,
actions, message and indicators, and constructs the `CrisisResult`; in both
branches the construction uses the keyword names of the call sites. -/
def assessCrisis (crisisResources : List (String × List CrisisResource))
    (dr : DetectionResult) : Except PyError CrisisCall :=
  if dr.protectionLevel.val < 3 then
    mkCrisisResult nonCrisisKwargs
      ⟨"mental_health", dr.protectionLevel, [], [], [], "non_crisis"⟩
  else
    let crisisTypes := detectCrisisTypes dr.originalInput
    let primary := primaryCrisis crisisTypes
    let resources := getCrisisResources crisisResources primary crisisTypes
    let actions := getRecommendedActions primary
    let messageKey := crisisMessageKey primary
    let indicators := extractDetectedIndicators dr.originalInput crisisTypes
    mkCrisisResult assessCrisisKwargs
      ⟨primary, dr.protectionLevel, indicators, resources, actions, messageKey⟩

end Lfas

namespace Core

/-- `src/integrations/core/detector.py`: the `CRISIS_LANGUAGE` indicator list. -/
def crisisLanguage : List PyStr :=
  [pyStr "last hope", pyStr "only chance", pyStr "can't take it anymore",
   pyStr "nobody understands", pyStr "completely alone",
   pyStr "if this doesn't work, i'm done", pyStr "if this doesn't work, i am done",
   pyStr "thinking about ending it", pyStr "don't want to live",
   pyStr "want to die", pyStr "kill myself", pyStr "end it all",
   pyStr "no reason to live", pyStr "better off dead",
   pyStr "everything is hopeless", pyStr "hopeless", pyStr "no hope",
   pyStr "give up", pyStr "nothing matters", pyStr "worthless"]

/-- `src/integrations/core/detector.py`: the `FINANCIAL_DESPERATION` indicator list. -/
def financialDesperation : List PyStr :=
  [pyStr "lost my job", pyStr "last $", pyStr "need money fast",
   pyStr "desperate for income", pyStr "can't pay bills", pyStr "cannot pay bills",
   pyStr "behind on rent", pyStr "facing eviction",
   pyStr "can't afford", pyStr "cannot afford", pyStr "no money left",
   pyStr "broke", pyStr "bankrupt", pyStr "drowning in debt"]

/-- `src/integrations/core/detector.py`: the `HEALTH_CRISIS` indicator list. -/
def healthCrisis : List PyStr :=
  [pyStr "can't see a doctor", pyStr "cannot see a doctor", pyStr "no insurance",
   pyStr "pain won't stop", pyStr "no medical help",
   pyStr "can't afford medication", pyStr "cannot afford medication",
   pyStr "untreated", pyStr "no healthcare", pyStr "medical emergency"]

/-- `src/integrations/core/detector.py`: the `ISOLATION_INDICATORS` indicator list. -/
def isolationIndicators : List PyStr :=
  [pyStr "no one to talk to", pyStr "family doesn't understand",
   pyStr "you're the only one who listens", pyStr "you are the only one",
   pyStr "completely alone in this", pyStr "nobody cares",
   pyStr "no friends", pyStr "no support", pyStr "isolated"]

/-- `src/integrations/core/detector.py`: `self.all_indicators` as set up in
`__init__` (insertion order). -/
def allIndicators : List (String × List PyStr) :=
  [("crisis_language", crisisLanguage),
   ("financial_desperation", financialDesperation),
   ("health_crisis", healthCrisis),
   ("isolation_indicators", isolationIndicators)]

/-- `src/integrations/core/detector.py` `detect`, initial `detected` dictionary:
the four category keys, each with an empty match list. -/
def emptyDetected : List (String × List PyStr) :=
  [("crisis_language", []), ("financial_desperation", []),
   ("health_crisis", []), ("isolation_indicators", [])]

/-- One pass of the history loop of `detect` for one history message: for each
category and each of its indicators, append the indicator when it is contained
in the message and not already recorded for that category. -/
def addHistoryMatches (indicators : List (String × List PyStr))
    (detected : List (String × List PyStr)) (message : PyStr) :
    List (String × List PyStr) :=
  let ml := pyLower message
  indicators.foldl
    (fun det ci =>
      det.map (fun dc =>
        if dc.1 = ci.1 then
          (dc.1, ci.2.foldl
            (fun acc i =>
              if pyIn (pyLower i) ml && !acc.contains i then acc ++ [i] else acc)
            dc.2)
        else dc))
    detected

/-- `src/integrations/core/detector.py` `VulnerabilityDetector.detect`: per
category, the indicators contained in the lowercased text, then matches from the
last 3 history messages merged in without duplicating a phrase within a category.
`detect` reads `self.all_indicators`, injected here; the source initializes the
result dictionary with the four standard category keys, so the injected map is
keyed by those categories. -/
def detect (indicators : List (String × List PyStr)) (text : PyStr)
    (conversationHistory : List PyStr) : List (String × List PyStr) :=
  let tl := pyLower text
  let det1 := indicators.foldl
    (fun det ci =>
      let found := ci.2.filter (fun i => pyIn (pyLower i) tl)
      det.map (fun dc => if dc.1 = ci.1 then (dc.1, dc.2 ++ found) else dc))
    emptyDetected
  let recent := conversationHistory.drop (conversationHistory.length - 3)
  recent.foldl (addHistoryMatches indicators) det1

/-- `src/integrations/core/detector.py` `count_triggers`: the size of the *set*
of all detected phrases across categories (`all_triggers.update(indicators)`),
so a phrase recorded under two categories is counted once. -/
def countTriggers (detected : List (String × List PyStr)) : Nat :=
  ((detected.map (·.2)).flatten).dedup.length

/-- `src/integrations/core/detector.py` `get_categories_triggered`. -/
def getCategoriesTriggered (detected : List (String × List PyStr)) : List String :=
  (detected.filter (fun dc => ¬ dc.2.isEmpty)).map (·.1)

/-- `src/integrations/core/protection.py` `determine_level`:
`≥ 3 → CRISIS`, `≥ 1 → ENHANCED`, `0 → STANDARD`. -/
def determineLevel (triggerCount : Nat) : ProtectionLevel :=
  if triggerCount ≥ 3 then .crisis
  else if triggerCount ≥ 1 then .enhanced
  else .standard

/-- `src/integrations/core/protection.py`: the mutable state of
`ProtectionLevelManager`. -/
structure ManagerState where
  currentLevel : ProtectionLevel
  triggerHistory : List Nat
  exchangesSinceClear : Nat
deriving DecidableEq, Repr

/-- `ProtectionLevelManager.__init__` / `reset`. -/
def initState : ManagerState := ⟨.standard, [], 0⟩

/-- `src/integrations/core/protection.py` `ProtectionLevelManager.update`: compute
`determine_level(trigger_count)`, record the count, then on a zero-trigger turn
bump `exchanges_since_clear` and force STANDARD once the streak reaches 3 (a
no-op, since `determine_level 0` is already STANDARD), else reset the streak;
`current_level` is set to the computed level. Returns the new state and the
returned level. -/
def update (s : ManagerState) (triggerCount : Nat) : ManagerState × ProtectionLevel :=
  let newLevel := determineLevel triggerCount
  let hist := s.triggerHistory ++ [triggerCount]
  if triggerCount = 0 then
    let streak := s.exchangesSinceClear + 1
    let lvl := if streak ≥ 3 then ProtectionLevel.standard else newLevel
    (⟨lvl, hist, streak⟩, lvl)
  else
    (⟨newLevel, hist, 0⟩, newLevel)

end Core

namespace Engine

/-- `src/integrations/python/shared/lfas_engine.py`: `CRISIS_LANGUAGE`. -/
def crisisLanguage : List PyStr :=
  [pyStr "last hope", pyStr "only chance", pyStr "can't take it anymore",
   pyStr "nobody understands", pyStr "completely alone",
   pyStr "if this doesn't work, i'm done", pyStr "i'm done",
   pyStr "thinking about ending it", pyStr "don't want to live",
   pyStr "want to die", pyStr "kill myself", pyStr "suicide"]

/-- `src/integrations/python/shared/lfas_engine.py`: `FINANCIAL_DESPERATION`. -/
def financialDesperation : List PyStr :=
  [pyStr "lost my job", pyStr "last $", pyStr "need money fast",
   pyStr "desperate for income", pyStr "can't pay bills",
   pyStr "behind on rent", pyStr "facing eviction",
   pyStr "out of money", pyStr "bankruptcy"]

/-- `src/integrations/python/shared/lfas_engine.py`: `HEALTH_CRISIS`. -/
def healthCrisis : List PyStr :=
  [pyStr "can't see a doctor", pyStr "no insurance",
   pyStr "pain won't stop", pyStr "no medical help",
   pyStr "can't afford medication", pyStr "untreated"]

/-- `src/integrations/python/shared/lfas_engine.py`: `ISOLATION_INDICATORS`. -/
def isolationIndicators : List PyStr :=
  [pyStr "no one to talk to", pyStr "family doesn't understand",
   pyStr "you're the only one who listens",
   pyStr "completely alone in this", pyStr "nobody cares"]

/-- `src/integrations/python/shared/lfas_engine.py` `_listen`: the detected
triggers, each tagged with its category. -/
def listen (userInput : PyStr) : List PyStr :=
  let il := pyLower userInput
  (crisisLanguage.filter (fun i => pyIn i il)).map (fun i => pyStr "crisis:" ++ i) ++
  (financialDesperation.filter (fun i => pyIn i il)).map (fun i => pyStr "financial:" ++ i) ++
  (healthCrisis.filter (fun i => pyIn i il)).map (fun i => pyStr "health:" ++ i) ++
  (isolationIndicators.filter (fun i => pyIn i il)).map (fun i => pyStr "isolation:" ++ i)

/-- `src/integrations/python/shared/lfas_engine.py`: the engine's session state
relevant to protection levels. -/
structure State where
  currentProtectionLevel : ProtectionLevel
  exchangesWithoutTriggers : Nat
deriving DecidableEq, Repr

/-- `LFASEngine.__init__` / `reset`. -/
def initState : State := ⟨.standard, 0⟩

/-- `src/integrations/python/shared/lfas_engine.py` `_reflect`: bump or reset the
clean-turn streak, force STANDARD once the streak reaches 3, compute this turn's
level from the trigger count (`0 → STANDARD`, `≤ 2 → ENHANCED`, else `CRISIS`)
and keep the maximum of the session level and this turn's level. -/
def reflect (s : State) (detectedTriggers : List PyStr) : State × ProtectionLevel :=
  let n := detectedTriggers.length
  let streak := if n = 0 then s.exchangesWithoutTriggers + 1 else 0
  let lvl0 :=
    if streak ≥ 3 then ProtectionLevel.standard else s.currentProtectionLevel
  let level : ProtectionLevel :=
    if n = 0 then .standard else if n ≤ 2 then .enhanced else .crisis
  let newLevel := maxLevel lvl0 level
  (⟨newLevel, streak⟩, newLevel)

end Engine

/-- The level stored in an `LfasProtocol.detect` result is the threshold function
of the stored indicator count. -/
theorem lfasProtocol_detect_level (t : PyStr) :
    (LfasProtocol.detect t).protectionLevel =
      (if (LfasProtocol.detect t).indicatorCount = 0 then ProtectionLevel.standard
       else if (LfasProtocol.detect t).indicatorCount ≤ 2 then ProtectionLevel.enhanced
       else ProtectionLevel.crisis) := rfl

/-- The level stored in a `SrcLfas.detect` result is `_determine_protection_level`
of the stored trigger count. -/
theorem srcLfas_detect_level (ind : List (String × List PyStr)) (t : PyStr)
    (h : List PyStr) :
    (SrcLfas.detect ind t h).protectionLevel =
      SrcLfas.determineProtectionLevel (SrcLfas.detect ind t h).triggerCount := rfl

/-- The number of matched pairs is the sum over categories of the number of
matching phrases of that category. -/
theorem matchPairsWith_length (m : PyStr → Bool) (l : List (String × List PyStr)) :
    (matchPairsWith m l).length =
      (l.map (fun ci => (ci.2.filter m).length)).sum := by
  induction l with
  | nil => rfl
  | cons ci rest ih => simp [matchPairsWith, ih]

/-- The keyword names used at both `CrisisResult(...)` call sites of
`src/lfas/crisis.py` do not match the dataclass fields of `CrisisResult`. -/
theorem lfas_callOk_false :
    pyDataclassCallOk Lfas.crisisResultFields Lfas.assessCrisisKwargs = false ∧
    pyDataclassCallOk Lfas.crisisResultFields Lfas.nonCrisisKwargs = false := by decide

/-- Every call of `src/lfas/crisis.py` `assess_crisis` ends in `TypeError`,
whatever the detection result and resource table. -/
theorem lfas_assessCrisis_raises
    (crisisResources : List (String × List Lfas.CrisisResource))
    (dr : Lfas.DetectionResult) :
    Lfas.assessCrisis crisisResources dr = .error .typeError := by
  unfold Lfas.assessCrisis Lfas.mkCrisisResult
  rcases lfas_callOk_false with ⟨h1, h2⟩
  split <;> simp [h1, h2]

/-- Composing the character-wise case maps: lowering an uppercased character gives
the same result as lowering a lowercased character. -/
theorem pyCharLower_pyCharUpper (c : Nat) :
    pyCharLower (pyCharUpper c) = pyCharLower (pyCharLower c) := by
  unfold pyCharLower pyCharUpper
  split_ifs <;> omega

/-- Lowering an uppercased string gives the same result as lowering a lowercased
string. -/
theorem pyLower_pyUpper (s : PyStr) :
    pyLower (pyUpper s) = pyLower (pyLower s) := by
  induction s with
  | nil => rfl
  | cons c cs ih =>
    simp only [pyLower, pyUpper, List.map_cons] at *
    rw [pyCharLower_pyCharUpper c]
    exact congrArg _ ih

/-- C1: the `src/lfas_protocol` detector maps trigger counts to levels exactly as
the claim states (`0 → STANDARD`, `1-2 → ENHANCED`, `≥ 3 → CRISIS`); the
`src/src/lfas` detector variant instead maps `0-1 → STANDARD` and `2 → ENHANCED`
(`≥ 3 → CRISIS`), so there an input producing exactly one trigger is classified
STANDARD, not ENHANCED. -/
theorem C1_protection_level_mapping :
    (∀ t : PyStr,
      ((LfasProtocol.detect t).indicatorCount = 0 →
        (LfasProtocol.detect t).protectionLevel = ProtectionLevel.standard) ∧
      (1 ≤ (LfasProtocol.detect t).indicatorCount →
        (LfasProtocol.detect t).indicatorCount ≤ 2 →
        (LfasProtocol.detect t).protectionLevel = ProtectionLevel.enhanced) ∧
      (3 ≤ (LfasProtocol.detect t).indicatorCount →
        (LfasProtocol.detect t).protectionLevel = ProtectionLevel.crisis)) ∧
    (∀ (ind : List (String × List PyStr)) (t : PyStr) (h : List PyStr),
      ((SrcLfas.detect ind t h).triggerCount ≤ 1 →
        (SrcLfas.detect ind t h).protectionLevel = ProtectionLevel.standard) ∧
      ((SrcLfas.detect ind t h).triggerCount = 2 →
        (SrcLfas.detect ind t h).protectionLevel = ProtectionLevel.enhanced) ∧
      (3 ≤ (SrcLfas.detect ind t h).triggerCount →
        (SrcLfas.detect ind t h).protectionLevel = ProtectionLevel.crisis)) := by
  constructor
  · intro t
    rw [lfasProtocol_detect_level t]
    refine ⟨fun h0 => ?_, fun h1 h2 => ?_, fun h3 => ?_⟩
    · rw [if_pos h0]
    · rw [if_neg (by omega), if_pos h2]
    · rw [if_neg (by omega), if_neg (by omega)]
  · intro ind t h
    rw [srcLfas_detect_level ind t h]
    unfold SrcLfas.determineProtectionLevel
    refine ⟨fun h0 => ?_, fun h2 => ?_, fun h3 => ?_⟩
    · rw [if_neg (by omega), if_neg (by omega)]
    · rw [if_neg (by omega), if_pos (by omega)]
    · rw [if_pos (by omega)]

/-- C1 witness: the input `"this is my last hope"` produces one trigger; the
`src/lfas_protocol` detector classifies it ENHANCED and the `src/src/lfas`
detector (given the injected taxonomy) classifies it STANDARD. -/
theorem C1_protection_level_mapping_witness :
    (LfasProtocol.detect (pyStr "this is my last hope")).protectionLevel =
      ProtectionLevel.enhanced ∧
    (SrcLfas.detect [("crisis_language", [pyStr "last hope"])]
      (pyStr "this is my last hope") []).protectionLevel = ProtectionLevel.standard :=
  ⟨(C1_protection_level_mapping.1 (pyStr "this is my last hope")).2.1
      (by decide) (by decide),
   (C1_protection_level_mapping.2 [("crisis_language", [pyStr "last hope"])]
      (pyStr "this is my last hope") []).1 (by decide)⟩

/-- C1 counterexample: in the `src/src/lfas` detector, the input
`"this is my last hope"` against a taxonomy in which it matches exactly one
phrase yields one trigger and level STANDARD — not ENHANCED as the claim
states for every input with exactly one trigger. -/
theorem C1_one_trigger_standard_counterexample :
    (SrcLfas.detect [("crisis_language", [pyStr "last hope"])]
      (pyStr "this is my last hope") []).triggerCount = 1 ∧
    (SrcLfas.detect [("crisis_language", [pyStr "last hope"])]
      (pyStr "this is my last hope") []).protectionLevel = ProtectionLevel.standard ∧
    ProtectionLevel.standard ≠ ProtectionLevel.enhanced := by decide

/-- C2: in `ProtectionLevelManager.update`, a session at CRISIS (after
`update(3)`) falls back to STANDARD on the very next zero-trigger turn: the
3-clean-turn de-escalation delay is not implemented (the streak check only
forces a level that is already STANDARD, and no maximum with the session level
is taken). The sibling engine `LFASEngine._reflect` does keep CRISIS through
one and two clean turns. -/
theorem C2_single_clean_turn_drops_level :
    (Core.update Core.initState 3).2 = ProtectionLevel.crisis ∧
    (Core.update (Core.update Core.initState 3).1 0).2 = ProtectionLevel.standard ∧
    (Engine.reflect (Engine.reflect Engine.initState
      [pyStr "a", pyStr "b", pyStr "c"]).1 []).2 = ProtectionLevel.crisis ∧
    (Engine.reflect (Engine.reflect (Engine.reflect Engine.initState
      [pyStr "a", pyStr "b", pyStr "c"]).1 []).1 []).2 = ProtectionLevel.crisis := by
  decide

/-- C3: in `src/lfas/crisis.py` the primary crisis type follows the claimed
priority rule (several types with `mental_health` among them → `mental_health`;
several types without it → `mixed`; exactly one type → that type; no type →
the `mental_health` default). The `src/src/lfas` variant instead classifies by
category priority: it never returns `mixed`, and when none of `crisis_language`,
`health_crisis`, `financial_desperation` is among the triggered categories it
returns `"general"`, not the mental-health default. -/
theorem C3_crisis_type_priority :
    (∀ ts : List String,
      (1 < ts.length → "mental_health" ∈ ts →
        Lfas.primaryCrisis ts = "mental_health") ∧
      (1 < ts.length → "mental_health" ∉ ts → Lfas.primaryCrisis ts = "mixed") ∧
      (∀ t, ts = [t] → Lfas.primaryCrisis ts = t) ∧
      (ts = [] → Lfas.primaryCrisis ts = "mental_health")) ∧
    (∀ dr : SrcLfas.DetectionResult,
      SrcLfas.determineCrisisType dr ≠ "mixed" ∧
      ("crisis_language" ∉ dr.triggeredCategories →
       "health_crisis" ∉ dr.triggeredCategories →
       "financial_desperation" ∉ dr.triggeredCategories →
       SrcLfas.determineCrisisType dr = "general")) := by
  constructor
  · intro ts
    refine ⟨fun hlen hmem => ?_, fun hlen hmem => ?_, fun t ht => ?_, fun ht => ?_⟩
    · unfold Lfas.primaryCrisis
      rw [if_pos ⟨hlen, hmem⟩]
    · unfold Lfas.primaryCrisis
      rw [if_neg (fun hc => hmem hc.2), if_pos hlen]
    · subst ht
      simp [Lfas.primaryCrisis]
    · subst ht
      rfl
  · intro dr
    constructor
    · unfold SrcLfas.determineCrisisType
      dsimp only
      split_ifs <;> decide
    · intro h1 h2 h3
      unfold SrcLfas.determineCrisisType
      dsimp only
      rw [if_neg (fun hc => h1 hc.1), if_neg h2, if_neg h3, if_neg h1]

/-- C3 witness: `"kill myself"` together with `"lost my job"` detects both
`mental_health` and `financial` and resolves to `mental_health`; `financial`
together with `health` (no mental health) resolves to `mixed`; and a
`src/src/lfas` detection whose only triggered category is
`isolation_indicators` resolves to `"general"`. -/
theorem C3_crisis_type_priority_witness :
    Lfas.primaryCrisis
      (Lfas.detectCrisisTypes (pyStr "i want to kill myself, i lost my job")) =
      "mental_health" ∧
    Lfas.primaryCrisis ["financial", "health"] = "mixed" ∧
    SrcLfas.determineCrisisType
      ⟨ProtectionLevel.crisis, [], ["isolation_indicators"], 3⟩ = "general" :=
  ⟨(C3_crisis_type_priority.1
      (Lfas.detectCrisisTypes (pyStr "i want to kill myself, i lost my job"))).1
      (by decide) (by decide),
   (C3_crisis_type_priority.1 ["financial", "health"]).2.1 (by decide) (by decide),
   (C3_crisis_type_priority.2
      ⟨ProtectionLevel.crisis, [], ["isolation_indicators"], 3⟩).2
      (by decide) (by decide) (by decide)⟩

/-- C3 counterexample: a `src/src/lfas` CRISIS-level detection (three matched
isolation phrases) in which no finer crisis-type keyword matches is classified
`"general"`, not the claimed MENTAL_HEALTH default. -/
theorem C3_general_default_counterexample :
    (SrcLfas.detect
      [("isolation_indicators",
        [pyStr "all alone", pyStr "nobody cares", pyStr "no one to talk to"])]
      (pyStr "i am all alone, nobody cares, no one to talk to") []).protectionLevel =
      ProtectionLevel.crisis ∧
    (SrcLfas.assessCrisis (SrcLfas.detect
      [("isolation_indicators",
        [pyStr "all alone", pyStr "nobody cares", pyStr "no one to talk to"])]
      (pyStr "i am all alone, nobody cares, no one to talk to") [])).crisisType =
      "general" ∧
    "general" ≠ "mental_health" := by decide

/-- C4: every call of `src/lfas/crisis.py` `assess_crisis` — on the crisis path
and on the non-crisis path alike — raises `TypeError`, because both call sites
construct `CrisisResult` with the keyword arguments `protection_level`,
`detected_indicators`, `primary_resources` and `user_message`, none of which is
a field of the `CrisisResult` dataclass. -/
theorem C4_assess_crisis_always_raises
    (crisisResources : List (String × List Lfas.CrisisResource))
    (dr : Lfas.DetectionResult) :
    Lfas.assessCrisis crisisResources dr = .error .typeError :=
  lfas_assessCrisis_raises crisisResources dr

/-- C5: in `src/lfas` the trigger count sums matched phrases per category (a
phrase listed in two categories is counted once per category). In
`src/integrations/core`, `count_triggers` instead takes the size of the set of
matched phrases across all categories, so a phrase listed in two categories and
matched counts 1, not 2; and in `src/src/lfas_protocol`, `trigger_count` is the
number of triggered categories, not of matched phrases. -/
theorem C5_trigger_count_semantics :
    (∀ (ind : List (String × List PyStr)) (cmin emin : Nat) (st : List PyStr)
       (t : PyStr) (ha : Option (List PyStr)),
      (Lfas.detect ind cmin emin st t ha).2.triggersCount =
        (ind.map (fun ci =>
          (ci.2.filter (fun i => pyIn (pyLower i) (pyLower t))).length)).sum) ∧
    (∀ w t : PyStr, pyIn (pyLower w) (pyLower t) = true →
      Core.countTriggers (Core.detect
        [("crisis_language", [w]), ("financial_desperation", [w]),
         ("health_crisis", []), ("isolation_indicators", [])] t []) = 1) ∧
    (∀ t : PyStr,
      (SrcProtocol.analyze t).triggerCount =
        ((SrcProtocol.analyze t).categories).length) := by
  refine ⟨fun ind cmin emin st t ha => ?_, fun w t hw => ?_, fun t => ?_⟩
  · exact matchPairsWith_length (fun i => pyIn (pyLower i) (pyLower t)) ind
  · simp [Core.detect, Core.emptyDetected, Core.countTriggers, hw,
      List.dedup_cons_of_mem, List.dedup_cons_of_not_mem]
  · simp [SrcProtocol.analyze]

/-- C5 witness: a taxonomy listing the phrase `"hopeless"` under both
`crisis_language` and `financial_desperation`, on an input containing it, yields
`count_triggers = 1` in the `src/integrations/core` detector. -/
theorem C5_trigger_count_semantics_witness :
    Core.countTriggers (Core.detect
      [("crisis_language", [pyStr "hopeless"]),
       ("financial_desperation", [pyStr "hopeless"]),
       ("health_crisis", []), ("isolation_indicators", [])]
      (pyStr "i feel hopeless") []) = 1 :=
  C5_trigger_count_semantics.2.1 (pyStr "hopeless") (pyStr "i feel hopeless")
    (by decide)

/-- C5 counterexample: with the same literal phrase listed in two categories and
an input containing it, the `src/integrations/core` trigger count is 1 — not 2
as the claim states. -/
theorem C5_shared_phrase_counterexample :
    Core.countTriggers (Core.detect
      [("crisis_language", [pyStr "worthless"]),
       ("financial_desperation", [pyStr "worthless"]),
       ("health_crisis", []), ("isolation_indicators", [])]
      (pyStr "i am worthless") []) = 1 ∧ (1 : Nat) ≠ 2 := by decide

/-- C6: in `src/src/lfas`, every known crisis type (`mental_health`,
`financial`, `health`, `abuse`) gets at least one resource, and whenever
`trigger_count ≥ 4` and the primary type is not `mental_health` the resource
list contains a mental-health resource; but the classifier can also return
`"general"`, and a `"general"` crisis with `trigger_count < 4` gets an *empty*
resource list, contradicting the claimed unconditional non-emptiness. -/
theorem C6_resource_selection :
    (∀ (ct : String) (dr : SrcLfas.DetectionResult),
      ct ∈ ["mental_health", "financial", "health", "abuse"] →
      1 ≤ (SrcLfas.getResources ct dr).length) ∧
    (∀ (ct : String) (dr : SrcLfas.DetectionResult),
      4 ≤ dr.triggerCount → ct ≠ "mental_health" →
      ∃ r ∈ SrcLfas.getResources ct dr,
        r ∈ (SrcLfas.crisisResources.lookup "mental_health").getD []) ∧
    (∀ dr : SrcLfas.DetectionResult,
      SrcLfas.determineCrisisType dr ∈
        ["mental_health", "health", "financial", "general"]) ∧
    (∀ dr : SrcLfas.DetectionResult, dr.triggerCount < 4 →
      SrcLfas.getResources "general" dr = []) := by
  refine ⟨fun ct dr hct => ?_, fun ct dr h4 hne => ?_, fun dr => ?_, fun dr h => ?_⟩
  · simp only [List.mem_cons, List.not_mem_nil, or_false] at hct
    rcases hct with h | h | h | h <;> subst h <;>
      · unfold SrcLfas.getResources
        dsimp only
        split <;> decide
  · refine ⟨⟨"National Suicide Prevention Lifeline",
      "24/7 support for people in distress", "988 or 1-800-273-8255", "US"⟩,
      ?_, by decide⟩
    unfold SrcLfas.getResources
    dsimp only
    rw [if_pos ⟨hne, h4⟩]
    exact List.mem_append_right _ (by decide)
  · unfold SrcLfas.determineCrisisType
    dsimp only
    split_ifs <;> decide
  · unfold SrcLfas.getResources
    dsimp only
    rw [if_neg (fun hc => absurd hc.2 (by omega))]
    decide

/-- C6 witness: a `financial` crisis with trigger count 3 gets a nonempty
resource list, and with trigger count 4 its resources include a mental-health
resource. -/
theorem C6_resource_selection_witness :
    1 ≤ (SrcLfas.getResources "financial"
      ⟨ProtectionLevel.crisis, [], ["financial_desperation"], 3⟩).length ∧
    ∃ r ∈ SrcLfas.getResources "financial"
        ⟨ProtectionLevel.crisis, [], ["financial_desperation"], 4⟩,
      r ∈ (SrcLfas.crisisResources.lookup "mental_health").getD [] :=
  ⟨C6_resource_selection.1 "financial"
      ⟨ProtectionLevel.crisis, [], ["financial_desperation"], 3⟩ (by decide),
   C6_resource_selection.2.1 "financial"
      ⟨ProtectionLevel.crisis, [], ["financial_desperation"], 4⟩
      (by decide) (by decide)⟩

/-- C6 counterexample: a CRISIS-level `src/src/lfas` detection with three matched
isolation phrases is assessed as a crisis (`crisis_detected = True`) whose
resource list is empty — the claimed `len(resources) ≥ 1` fails. -/
theorem C6_empty_resources_counterexample :
    (SrcLfas.detect
      [("isolation_indicators",
        [pyStr "no friends", pyStr "no support", pyStr "isolated"])]
      (pyStr "i have no friends, no support, isolated") []).protectionLevel =
      ProtectionLevel.crisis ∧
    (SrcLfas.assessCrisis (SrcLfas.detect
      [("isolation_indicators",
        [pyStr "no friends", pyStr "no support", pyStr "isolated"])]
      (pyStr "i have no friends, no support, isolated") [])).crisisDetected = true ∧
    (SrcLfas.assessCrisis (SrcLfas.detect
      [("isolation_indicators",
        [pyStr "no friends", pyStr "no support", pyStr "isolated"])]
      (pyStr "i have no friends, no support, isolated") [])).resources = [] := by
  decide

/-- C7: calling the crisis assessment on a detection result below CRISIS never
silently yields a normal crisis result: the `src/src/lfas` variant returns its
explicit "no crisis" sentinel (`crisis_detected = False`, type `"none"`, no
resources, no actions), and the `src/lfas` variant fails immediately with a
`TypeError` (its sentinel construction itself uses the mismatched keyword
arguments). -/
theorem C7_non_crisis_policy :
    (∀ dr : SrcLfas.DetectionResult, dr.protectionLevel.val < 3 →
      SrcLfas.assessCrisis dr = ⟨false, "none", [], []⟩) ∧
    (∀ (crisisResources : List (String × List Lfas.CrisisResource))
       (dr : Lfas.DetectionResult), dr.protectionLevel.val < 3 →
      Lfas.assessCrisis crisisResources dr = .error .typeError) := by
  constructor
  · intro dr h
    unfold SrcLfas.assessCrisis
    rw [if_pos (show dr.protectionLevel.val < ProtectionLevel.crisis.val from h)]
  · intro crisisResources dr _
    exact lfas_assessCrisis_raises crisisResources dr

/-- C7 witness: an ENHANCED-level detection result gets the sentinel in
`src/src/lfas` and the `TypeError` in `src/lfas`. -/
theorem C7_non_crisis_policy_witness :
    SrcLfas.assessCrisis ⟨ProtectionLevel.enhanced, [], [], 2⟩ =
      ⟨false, "none", [], []⟩ ∧
    Lfas.assessCrisis [] ⟨ProtectionLevel.enhanced, 2, [], pyStr "hello", none⟩ =
      .error .typeError :=
  ⟨C7_non_crisis_policy.1 ⟨ProtectionLevel.enhanced, [], [], 2⟩ (by decide),
   C7_non_crisis_policy.2 [] ⟨ProtectionLevel.enhanced, 2, [], pyStr "hello", none⟩
      (by decide)⟩

/-- C8: the claimed severity rule (`≥ 5 → "critical"`, `≥ 3 → "high"`, else
`"moderate"`) is documented by the spec and the repository's own test
`test_severity_determination`, but `src/lfas` never computes a severity at all:
at the test's own input (`CRISIS`, 3 triggers, `crisis_language`, `"Test"`),
`assess_crisis` raises `TypeError` instead of returning a `CrisisResult` with
severity `"high"`. -/
theorem C8_severity_never_produced :
    Lfas.assessCrisis []
      ⟨ProtectionLevel.crisis, 3, ["crisis_language"], pyStr "Test", none⟩ =
      .error .typeError := rfl

/-- C9: `src/lfas` detection is deterministic in its analysis: whatever the
detector's stored conversation history and whatever history argument is passed,
identical input text yields identical level, trigger count, categories and
original input; and the only state `detect` changes is the documented
conversation history, which becomes the (replaced-or-kept) history with the
current input appended. -/
theorem C9_detect_deterministic :
    ∀ (ind : List (String × List PyStr)) (cmin emin : Nat)
      (st1 st2 : List PyStr) (input : PyStr) (h1 h2 : Option (List PyStr)),
      (Lfas.detect ind cmin emin st1 input h1).2.protectionLevel =
        (Lfas.detect ind cmin emin st2 input h2).2.protectionLevel ∧
      (Lfas.detect ind cmin emin st1 input h1).2.triggersCount =
        (Lfas.detect ind cmin emin st2 input h2).2.triggersCount ∧
      (Lfas.detect ind cmin emin st1 input h1).2.detectedCategories =
        (Lfas.detect ind cmin emin st2 input h2).2.detectedCategories ∧
      (Lfas.detect ind cmin emin st1 input h1).2.originalInput =
        (Lfas.detect ind cmin emin st2 input h2).2.originalInput ∧
      (Lfas.detect ind cmin emin st1 input h1).1 =
        (match h1 with | some h => h | none => st1) ++ [input] :=
  fun _ _ _ _ _ _ _ _ => ⟨rfl, rfl, rfl, rfl, rfl⟩

/-- On a string of ASCII code points, the case-expanding Unicode mappings never
fire, so `pyUpperFull` agrees with the ASCII `pyUpper`. -/
theorem pyUpperFull_ascii (s : PyStr) (h : s.all (fun c => c < 128) = true) :
    pyUpperFull s = pyUpper s := by
  induction s with
  | nil => rfl
  | cons c cs ih =>
    simp only [List.all_cons, Bool.and_eq_true, decide_eq_true_eq] at h
    have hc : pyCharUpperFull c = [pyCharUpper c] := by
      unfold pyCharUpperFull
      have h1 := h.1
      rw [if_neg (by omega), if_neg (by omega), if_neg (by omega), if_neg (by omega)]
    have step : pyUpperFull (c :: cs) = pyCharUpperFull c ++ pyUpperFull cs := rfl
    rw [step, hc, ih h.2]
    rfl

/-- C10: for every input text of ASCII code points, the uppercase form produces
the same trigger count and the same triggered categories as the lowercase form,
in the `src/lfas` detector, the `src/integrations/core` detector and the
`src/lfas_protocol` detector. (Beyond ASCII, Python's Unicode case mapping can
break this — see the counterexample.) -/
theorem C10_case_insensitive_ascii :
    ∀ t : PyStr, t.all (fun c => c < 128) = true →
    ∀ (hist : List PyStr) (ind : List (String × List PyStr))
      (cmin emin : Nat) (st : List PyStr) (ha : Option (List PyStr)),
      (Lfas.detect ind cmin emin st (pyUpperFull t) ha).2.triggersCount =
        (Lfas.detect ind cmin emin st (pyLower t) ha).2.triggersCount ∧
      (Lfas.detect ind cmin emin st (pyUpperFull t) ha).2.detectedCategories =
        (Lfas.detect ind cmin emin st (pyLower t) ha).2.detectedCategories ∧
      Core.countTriggers (Core.detect ind (pyUpperFull t) hist) =
        Core.countTriggers (Core.detect ind (pyLower t) hist) ∧
      Core.getCategoriesTriggered (Core.detect ind (pyUpperFull t) hist) =
        Core.getCategoriesTriggered (Core.detect ind (pyLower t) hist) ∧
      (LfasProtocol.detect (pyUpperFull t)).indicatorCount =
        (LfasProtocol.detect (pyLower t)).indicatorCount ∧
      (LfasProtocol.detect (pyUpperFull t)).categories =
        (LfasProtocol.detect (pyLower t)).categories := by
  intro t ht hist ind cmin emin st ha
  rw [pyUpperFull_ascii t ht]
  have key := pyLower_pyUpper t
  refine ⟨?_, ?_, ?_, ?_, ?_, ?_⟩ <;>
    simp only [Lfas.detect, Core.detect, LfasProtocol.detect, key]

/-- C10 witness: the ASCII input `"last hope"` gets the same indicator count from
its uppercase form `"LAST HOPE"` as from its lowercase form. -/
theorem C10_case_insensitive_ascii_witness :
    (LfasProtocol.detect (pyUpperFull (pyStr "last hope"))).indicatorCount =
      (LfasProtocol.detect (pyLower (pyStr "last hope"))).indicatorCount :=
  (C10_case_insensitive_ascii (pyStr "last hope") (by decide)
    [] [] 0 0 [] none).2.2.2.2.1

/-- C10 counterexample: for the non-ASCII text `"laſt hope"` (with U+017F LATIN
SMALL LETTER LONG S), Python's `str.upper` case-expands ſ to `S`, so the
uppercase form is `"LAST HOPE"` and matches the taxonomy phrase `"last hope"`
(1 trigger in the `src/integrations/core` detector), while the lowercase form is
the unchanged `"laſt hope"` and matches nothing (0 triggers) — the claimed
equality of trigger counts fails on this input. -/
theorem C10_unicode_counterexample :
    pyUpperFull (pyStr "laſt hope") = pyStr "LAST HOPE" ∧
    pyLower (pyStr "laſt hope") = pyStr "laſt hope" ∧
    Core.countTriggers (Core.detect Core.allIndicators (pyStr "LAST HOPE") []) = 1 ∧
    Core.countTriggers (Core.detect Core.allIndicators (pyStr "laſt hope") []) = 0 := by
  decide
